/-
Verification of the grain-trading backend's trade/financing/invoicing core.

Shallow embedding of the relevant Python/Django code:
  * trade/models.py      (Trade, TradeFinancing, GoodsReceivedNote)
  * trade/signals.py     (handle_trade_status_changes, _handle_trade_completion,
                          _distribute_trade_profits, handle_trade_financing)
  * trade/views.py       (TradeViewSet.create_delivery_batch)
  * accounting/models.py (Invoice, Payment)
  * accounting/signals.py(update_invoice_on_payment, check_trade_completion)
  * investors/models.py  (InvestorAccount, ProfitSharingAgreement)

Monetary amounts (Python Decimal) are embedded as rationals; dates are
embedded as integer day numbers ("today" is passed explicitly).  Persistent
foreign-key relations (grns, invoices, financing_allocations, payments) are
passed explicitly as lists.  Audit-only data (ledger entries, notes,
identifiers, vehicle/driver metadata, timestamps) is omitted: no verified
claim depends on it.
-/
import Mathlib

namespace GrainVoucher

/-- Trade.STATUS_CHOICES from trade/models.py. -/
inductive TradeStatus
  | draft
  | pending_approval
  | approved
  | pending_allocation
  | ready_for_delivery
  | in_transit
  | delivered
  | completed
  | cancelled
  | rejected
  deriving DecidableEq

/-- Trade.DELIVERY_STATUS_CHOICES from trade/models.py. -/
inductive DeliveryStatus
  | pending
  | in_transit
  | delivered
  deriving DecidableEq

/-- Trade.BENNU_FEES_PAYER_CHOICES from trade/models.py. -/
inductive BennuPayer
  | buyer
  | seller
  | split
  deriving DecidableEq

/-- Invoice.PAYMENT_STATUS_CHOICES from accounting/models.py.
`part_paid` embeds the source's string that names a proper partial payment. -/
inductive PaymentStatus
  | unpaid
  | part_paid
  | paid
  | overdue
  deriving DecidableEq

/-- Invoice.STATUS_CHOICES from accounting/models.py.
`partly_paid` embeds the source's partially-paid status string. -/
inductive InvoiceStatus
  | draft
  | issued
  | sent
  | partly_paid
  | paid
  | overdue
  | cancelled
  deriving DecidableEq

/-- Payment.STATUS_CHOICES from accounting/models.py. -/
inductive PayStatus
  | pending
  | completed
  | cancelled
  deriving DecidableEq

/-- The financial and workflow fields of trade/models.py `Trade`.
Identifier, party, grain, date and free-text fields are omitted. -/
structure Trade where
  net_tonnage : ℚ
  quantity_kg : ℚ
  buying_price : ℚ
  selling_price : ℚ
  aflatoxin_qa_cost : ℚ
  weighbridge_cost : ℚ
  offloading_cost : ℚ
  loading_cost : ℚ
  transport_cost_per_kg : ℚ
  financing_fee_percentage : ℚ
  financing_days : ℤ
  git_insurance_percentage : ℚ
  deduction_percentage : ℚ
  other_expenses : ℚ
  bennu_fees : ℚ
  bennu_fees_payer : BennuPayer
  loss_quantity_kg : ℚ
  loss_cost : ℚ
  total_trade_cost : ℚ
  payable_by_buyer : ℚ
  margin : ℚ
  gross_margin_percentage : ℚ
  roi_percentage : ℚ
  status : TradeStatus
  delivery_status : DeliveryStatus
  requires_voucher_allocation : Bool
  allocation_complete : Bool
  requires_financing : Bool
  financing_complete : Bool
  deriving DecidableEq

/-- Trade.calculate_costs (trade/models.py lines 186-240). -/
def Trade.calculate_costs (t : Trade) : Trade :=
  let purchase_cost := t.buying_price * t.quantity_kg
  let transport_total := t.transport_cost_per_kg * t.quantity_kg
  let financing_cost : ℚ :=
    if t.financing_days > 0 ∧ t.financing_fee_percentage > 0 then
      purchase_cost * (t.financing_fee_percentage / 100 / 365) * (t.financing_days : ℚ)
    else 0
  let git_cost := (t.selling_price * t.quantity_kg) * (t.git_insurance_percentage / 100)
  let deduction_cost := purchase_cost * (t.deduction_percentage / 100)
  let bennu_cost_to_trade : ℚ :=
    match t.bennu_fees_payer with
    | .seller => t.bennu_fees
    | .buyer => 0
    | .split => t.bennu_fees / 2
  let bennu_cost_to_buyer : ℚ :=
    match t.bennu_fees_payer with
    | .seller => 0
    | .buyer => t.bennu_fees
    | .split => t.bennu_fees / 2
  let total_trade_cost :=
    purchase_cost + t.aflatoxin_qa_cost + t.weighbridge_cost + t.offloading_cost +
      t.loading_cost + transport_total + financing_cost + git_cost + deduction_cost +
      t.other_expenses + bennu_cost_to_trade + t.loss_cost
  let payable_by_buyer := t.selling_price * t.quantity_kg + bennu_cost_to_buyer
  let margin := payable_by_buyer - total_trade_cost
  let gross_margin_percentage :=
    if payable_by_buyer > 0 then margin / payable_by_buyer * 100 else t.gross_margin_percentage
  let roi_percentage :=
    if total_trade_cost > 0 then margin / total_trade_cost * 100 else t.roi_percentage
  { t with
    total_trade_cost := total_trade_cost
    payable_by_buyer := payable_by_buyer
    margin := margin
    gross_margin_percentage := gross_margin_percentage
    roi_percentage := roi_percentage }

/-- Trade.save (trade/models.py lines 165-179): derives quantity_kg from
net_tonnage, recomputes loss_cost when losses exist, then recomputes costs. -/
def Trade.save (t : Trade) : Trade :=
  let t1 := { t with quantity_kg := t.net_tonnage * 1000 }
  let t2 :=
    if t1.loss_quantity_kg > 0 then
      { t1 with loss_cost := t1.loss_quantity_kg * t1.buying_price }
    else t1
  t2.calculate_costs

/-- The financial fields of accounting/models.py `Invoice`.  Dates are integer
day numbers.  Identifier, party and free-text fields are omitted. -/
structure Invoice where
  quantity_kg : ℚ
  unit_price : ℚ
  bennu_fees : ℚ
  logistics_cost : ℚ
  weighbridge_cost : ℚ
  other_charges : ℚ
  tax_rate : ℚ
  tax_amount : ℚ
  discount_amount : ℚ
  subtotal : ℚ
  total_amount : ℚ
  amount_paid : ℚ
  amount_due : ℚ
  due_date : ℤ
  status : InvoiceStatus
  payment_status : PaymentStatus
  deriving DecidableEq

/-- accounting/models.py `Payment`, reduced to amount and status. -/
structure Payment where
  amount : ℚ
  status : PayStatus
  deriving DecidableEq

/-- Sum of net_weight_kg over a trade's GRNs: the
`grns.aggregate(total=Sum('net_weight_kg'))['total'] or 0` aggregate. -/
def sumKg (grns : List ℚ) : ℚ := grns.foldr (fun w acc => w + acc) 0

/-- `payment_status__in=['unpaid', 'partial', 'overdue']` filter predicate used
by Trade.progress_to_next_status and check_trade_completion. -/
def unpaidLike (s : PaymentStatus) : Bool :=
  match s with
  | .unpaid => true
  | .part_paid => true
  | .overdue => true
  | .paid => false

/-- Trade.get_delivery_progress (trade/models.py lines 242-263), the fields the
state machine reads: delivered_kg, remaining_kg, is_fully_delivered. -/
def Trade.delivered_kg (_ : Trade) (grns : List ℚ) : ℚ := sumKg grns

def Trade.remaining_kg (t : Trade) (grns : List ℚ) : ℚ := t.quantity_kg - sumKg grns

def Trade.is_fully_delivered (t : Trade) (grns : List ℚ) : Bool :=
  t.remaining_kg grns ≤ 0

/-- The `transitions` dict of Trade.progress_to_next_status
(trade/models.py lines 275-283). -/
def transitions : TradeStatus → Option TradeStatus
  | .draft => some .pending_approval
  | .pending_approval => some .approved
  | .approved => some .ready_for_delivery
  | .pending_allocation => some .ready_for_delivery
  | .ready_for_delivery => some .in_transit
  | .in_transit => some .delivered
  | .delivered => some .completed
  | _ => none

/-- Trade.progress_to_next_status (trade/models.py lines 273-374).
`grns` are the net weights of the trade's GRNs and `invoices` its invoices.
ValidationError is embedded as `.error` carrying the message prefix.
The approver/notes bookkeeping (lines 356-364) touches only fields outside
this embedding and is omitted.  The final `self.save()` is kept. -/
def Trade.progress_to_next_status (t : Trade) (grns : List ℚ) (invoices : List Invoice) :
    Except String Trade :=
  match transitions t.status with
  | none => .error "Cannot progress from status"
  | some next0 =>
    if t.status = .approved ∧ t.requires_financing = true ∧ t.financing_complete = false then
      .error "Trade requires financing before it can proceed"
    else
      -- the second `route to pending_allocation` branch of the source
      -- (lines 301-303) repeats the condition of the guard above and is
      -- therefore unreachable; it is kept verbatim.
      let next :=
        if t.status = .approved ∧ t.requires_voucher_allocation = true ∧
            t.allocation_complete = false then
          TradeStatus.pending_allocation
        else if t.status = .approved ∧ t.requires_financing = true ∧
            t.financing_complete = false then
          TradeStatus.pending_allocation
        else next0
      if t.status = .pending_allocation ∧ t.requires_voucher_allocation = true ∧
          t.allocation_complete = false then
        .error "Trade requires voucher allocation before it can proceed"
      else if t.status = .pending_allocation ∧ t.requires_financing = true ∧
          t.financing_complete = false then
        .error "Trade requires financing completion before it can proceed"
      else if t.status = .delivered ∧ next = .completed ∧ grns = [] then
        .error "Cannot complete trade without Goods Received Note (GRN)"
      else if t.status = .delivered ∧ next = .completed ∧
          t.is_fully_delivered grns = false then
        .error "Cannot complete trade - kg still pending delivery"
      else if t.status = .delivered ∧ next = .completed ∧
          (invoices.filter (fun i => unpaidLike i.payment_status)) ≠ [] then
        .error "Cannot complete trade with unpaid invoice(s)"
      else
        let t1 := { t with status := next }
        let t2 := if next = .in_transit then { t1 with delivery_status := .in_transit } else t1
        let t3 := if next = .delivered then { t2 with delivery_status := .delivered } else t2
        .ok t3.save

/-- Trade.get_allocated_financing (trade/models.py lines 391-393): sum of
allocated_amount over the trade's financing_allocations, given as a list. -/
def Trade.get_allocated_financing (_ : Trade) (allocated : List ℚ) : ℚ :=
  allocated.foldr (fun a acc => a + acc) 0

/-- Trade.is_fully_financed (trade/models.py lines 395-399);
get_total_financing_needed is total_trade_cost (lines 387-389). -/
def Trade.is_fully_financed (t : Trade) (allocated : List ℚ) : Bool :=
  if t.requires_financing = false then true
  else t.get_allocated_financing allocated ≥ t.total_trade_cost

/-- Invoice.calculate_amounts (accounting/models.py lines 203-223). -/
def Invoice.calculate_amounts (inv : Invoice) : Invoice :=
  let subtotal := inv.quantity_kg * inv.unit_price
  let add_on_charges := inv.bennu_fees + inv.logistics_cost + inv.weighbridge_cost +
    inv.other_charges
  let tax_amount := subtotal * inv.tax_rate / 100
  let total_amount := subtotal + add_on_charges + tax_amount - inv.discount_amount
  { inv with
    subtotal := subtotal
    tax_amount := tax_amount
    total_amount := total_amount
    amount_due := total_amount - inv.amount_paid }

/-- Invoice.update_payment_status (accounting/models.py lines 225-240).
`today` is `timezone.now().date()` as an integer day number. -/
def Invoice.update_payment_status (inv : Invoice) (today : ℤ) : Invoice :=
  let inv1 :=
    if inv.amount_paid = 0 then
      { inv with payment_status := .unpaid }
    else if inv.amount_paid ≥ inv.total_amount then
      { inv with payment_status := .paid, status := .paid }
    else
      { inv with payment_status := .part_paid, status := .partly_paid }
  if inv1.payment_status ≠ .paid ∧ inv1.due_date < today then
    { inv1 with
      payment_status := .overdue
      status := if inv1.status ≠ .cancelled ∧ inv1.status ≠ .paid then .overdue else inv1.status }
  else inv1

/-- Invoice.save (accounting/models.py lines 144-154): recompute amounts, then
recompute payment status.  Invoice-number generation is omitted. -/
def Invoice.save (inv : Invoice) (today : ℤ) : Invoice :=
  (inv.calculate_amounts).update_payment_status today

/-- `invoice.payments.filter(status='completed').aggregate(Sum('amount'))` or 0,
from accounting/signals.py update_invoice_on_payment. -/
def completedTotal (payments : List Payment) : ℚ :=
  ((payments.filter (fun p => p.status = .completed)).map Payment.amount).foldr
    (fun a acc => a + acc) 0

/-- update_invoice_on_payment (accounting/signals.py lines 94-118), in the
firing case (payment created with status completed): set amount_paid to the
sum of completed payments, recompute amount_due, update payment status, then
`invoice.save(...)` (which re-runs the full overridden save). -/
def update_invoice_on_payment (inv : Invoice) (payments : List Payment) (today : ℤ) : Invoice :=
  let total_paid := completedTotal payments
  let inv1 := { inv with amount_paid := total_paid, amount_due := inv.total_amount - total_paid }
  let inv2 := inv1.update_payment_status today
  inv2.save today

/-- The balance fields of investors/models.py `InvestorAccount`. -/
structure InvestorAccount where
  total_deposited : ℚ
  total_utilized : ℚ
  available_balance : ℚ
  total_margin_earned : ℚ
  total_margin_paid : ℚ
  total_interest_earned : ℚ
  deriving DecidableEq

/-- InvestorAccount.allocate_to_trade (investors/models.py lines 51-57). -/
def InvestorAccount.allocate_to_trade (a : InvestorAccount) (amount : ℚ) :
    Except String InvestorAccount :=
  if amount > a.available_balance then .error "Insufficient available balance"
  else .ok { a with
    available_balance := a.available_balance - amount
    total_utilized := a.total_utilized + amount }

/-- InvestorAccount.release_from_trade (investors/models.py lines 59-64). -/
def InvestorAccount.release_from_trade (a : InvestorAccount) (amount profit : ℚ) :
    InvestorAccount :=
  { a with
    total_utilized := a.total_utilized - amount
    available_balance := a.available_balance + (amount + profit)
    total_margin_earned := a.total_margin_earned + profit }

/-- The terms of investors/models.py `ProfitSharingAgreement`. -/
structure ProfitSharingAgreement where
  profit_threshold : ℚ
  investor_share : ℚ
  bennu_share : ℚ
  deriving DecidableEq

/-- The profit-distribution fields of trade/models.py `TradeFinancing`. -/
structure TradeFinancing where
  allocated_amount : ℚ
  allocation_percentage : ℚ
  margin_earned : ℚ
  investor_margin : ℚ
  bennu_margin : ℚ
  deriving DecidableEq

/-- One investor's allocation state as the distribution loop sees it: the
TradeFinancing row, the most-recently-effective ProfitSharingAgreement of its
investor account (none if the account has no agreement), and the account. -/
structure AllocState where
  financing : TradeFinancing
  agreement : Option ProfitSharingAgreement
  account : InvestorAccount
  deriving DecidableEq

/-- The loop body of _distribute_trade_profits (trade/signals.py lines
121-150) for one financing allocation: compute margin_earned, split it per the
agreement (defaults 2/75/25 when none), save the financing, and release the
investor's capital plus profit.  Ledger entries are omitted. -/
def distributeOne (margin total_trade_cost : ℚ) (x : AllocState) : AllocState :=
  let profit_threshold := match x.agreement with | some ag => ag.profit_threshold | none => 2
  let investor_share := match x.agreement with | some ag => ag.investor_share | none => 75
  let bennu_share := match x.agreement with | some ag => ag.bennu_share | none => 25
  let margin_percentage : ℚ :=
    if total_trade_cost > 0 then margin / total_trade_cost * 100 else 0
  let margin_earned : ℚ :=
    if total_trade_cost > 0 then margin * x.financing.allocated_amount / total_trade_cost else 0
  let f :=
    if margin_percentage ≤ profit_threshold then
      { x.financing with
        margin_earned := margin_earned
        investor_margin := margin_earned
        bennu_margin := 0 }
    else
      { x.financing with
        margin_earned := margin_earned
        investor_margin := margin_earned * investor_share / 100
        bennu_margin := margin_earned * bennu_share / 100 }
  { x with
    financing := f
    account := x.account.release_from_trade x.financing.allocated_amount f.investor_margin }

/-- _distribute_trade_profits (trade/signals.py lines 114-170): no-op when the
trade has no financing allocations, otherwise the loop over allocations. -/
def distribute_trade_profits (t : Trade) (allocs : List AllocState) : List AllocState :=
  if allocs = [] then allocs
  else allocs.map (distributeOne t.margin t.total_trade_cost)

/-- The status-dispatch of handle_trade_status_changes (trade/signals.py lines
13-39) restricted to the 'completed' arm, composed with
_handle_trade_completion (lines 97-111): every post_save of an existing trade
whose status is 'completed' runs profit distribution.  There is no processed
flag.  Ledger entries are omitted. -/
def handle_trade_status_changes (t : Trade) (allocs : List AllocState) : List AllocState :=
  if t.status = .completed then distribute_trade_profits t allocs
  else allocs

/-- handle_trade_financing (trade/signals.py lines 217-241), fired on creation
of a TradeFinancing: deduct from the investor's available balance; then, with
`allocated` the post-creation list of the trade's allocation amounts, if the
trade requires financing and is fully financed, set financing_complete and
move the trade to 'pending_allocation'. -/
def handle_trade_financing (t : Trade) (acct : InvestorAccount) (allocated : List ℚ)
    (amount : ℚ) : Except String (Trade × InvestorAccount) :=
  match acct.allocate_to_trade amount with
  | .error e => .error e
  | .ok acct1 =>
    let t1 :=
      if t.requires_financing = true ∧ t.is_fully_financed allocated = true then
        { t with financing_complete := true, status := .pending_allocation }
      else t
    .ok (t1, acct1)

/-- TradeViewSet.create_delivery_batch (trade/views.py lines 72-202): status
gate, remaining-quantity checks, GRN creation (appending the requested net
weight), then the in-transit and fully-delivered status flips.  The GRN
serializer fields, the invoice lookup for the response payload, and
actual_delivery_date are omitted; the 400 responses are embedded as errors. -/
def create_delivery_batch (t : Trade) (grns : List ℚ) (requested : ℚ) :
    Except String (Trade × List ℚ) :=
  if t.status ≠ .ready_for_delivery ∧ t.status ≠ .in_transit ∧ t.status ≠ .delivered then
    .error "Cannot create delivery for trade in this status"
  else
    let delivered_so_far := sumKg grns
    let remaining_qty := t.quantity_kg - delivered_so_far
    if remaining_qty ≤ 0 then .error "Trade order fully delivered"
    else if requested ≤ 0 then .error "net_weight_kg must be greater than 0"
    else if requested > remaining_qty then
      .error "Requested quantity exceeds remaining quantity"
    else
      let grns1 := grns ++ [requested]
      let t1 := if t.status = .ready_for_delivery then ({ t with status := .in_transit }).save else t
      let new_total_delivered := delivered_so_far + requested
      let t2 :=
        if new_total_delivered ≥ t.quantity_kg then
          ({ t1 with status := .delivered, delivery_status := .delivered }).save
        else t1
      .ok (t2, grns1)

/-- check_trade_completion (accounting/signals.py lines 164-184), composed
with the Trade post_save signal its `trade.save(...)` fires: on a completed
payment, if no invoice of the trade is unpaid/partial/overdue and the trade is
'delivered', mark the trade completed; that save triggers
handle_trade_status_changes, which distributes profits. -/
def check_trade_completion (p : Payment) (t : Trade) (invoices : List Invoice)
    (allocs : List AllocState) : Trade × List AllocState :=
  if p.status ≠ .completed then (t, allocs)
  else
    let all_invoices_paid := (invoices.filter (fun i => unpaidLike i.payment_status)) = []
    if all_invoices_paid ∧ t.status = .delivered then
      let t1 := ({ t with status := .completed }).save
      (t1, handle_trade_status_changes t1 allocs)
    else (t, allocs)

/-- Scenario A of the spec: 10,000 kg ordered (net_tonnage 10), buying
1,000/kg, selling 1,200/kg, every other cost input zero. -/
def exTradeA : Trade :=
  { net_tonnage := 10
    quantity_kg := 10000
    buying_price := 1000
    selling_price := 1200
    aflatoxin_qa_cost := 0
    weighbridge_cost := 0
    offloading_cost := 0
    loading_cost := 0
    transport_cost_per_kg := 0
    financing_fee_percentage := 0
    financing_days := 0
    git_insurance_percentage := 0
    deduction_percentage := 0
    other_expenses := 0
    bennu_fees := 0
    bennu_fees_payer := .buyer
    loss_quantity_kg := 0
    loss_cost := 0
    total_trade_cost := 0
    payable_by_buyer := 0
    margin := 0
    gross_margin_percentage := 0
    roi_percentage := 0
    status := .draft
    delivery_status := .pending
    requires_voucher_allocation := false
    allocation_complete := false
    requires_financing := false
    financing_complete := false }

/-- A fully delivered trade awaiting completion. -/
def exTradeDelivered : Trade := { exTradeA with status := .delivered, delivery_status := .delivered }

/-- A fully paid invoice over the whole ordered quantity. -/
def exPaidInvoice : Invoice :=
  { quantity_kg := 10000
    unit_price := 1200
    bennu_fees := 0
    logistics_cost := 0
    weighbridge_cost := 0
    other_charges := 0
    tax_rate := 0
    tax_amount := 0
    discount_amount := 0
    subtotal := 12000000
    total_amount := 12000000
    amount_paid := 12000000
    amount_due := 0
    due_date := 30
    status := .paid
    payment_status := .paid }

/-- An issued, unpaid invoice over the whole ordered quantity. -/
def exUnpaidInvoice : Invoice :=
  { exPaidInvoice with
    amount_paid := 0
    amount_due := 12000000
    status := .issued
    payment_status := .unpaid }

/-- A completed trade with margin 10 over total cost 100. -/
def exTradeCompleted : Trade :=
  { exTradeA with
    status := .completed
    margin := 10
    total_trade_cost := 100 }

/-- An investor whose whole 100 deposit is tied up in exTradeCompleted. -/
def exUtilizedAccount : InvestorAccount :=
  { total_deposited := 100
    total_utilized := 100
    available_balance := 0
    total_margin_earned := 0
    total_margin_paid := 0
    total_interest_earned := 0 }

/-- The financing row of that investor on exTradeCompleted. -/
def exFinancing : TradeFinancing :=
  { allocated_amount := 100
    allocation_percentage := 100
    margin_earned := 0
    investor_margin := 0
    bennu_margin := 0 }

/-- That investor's allocation state, with no profit-sharing agreement. -/
def exAllocState : AllocState :=
  { financing := exFinancing, agreement := none, account := exUtilizedAccount }

/-- Scenario B of the spec: an approved trade requiring financing with total
cost 10,000,000. -/
def exTradeNeedsFin : Trade :=
  { exTradeA with
    status := .approved
    requires_financing := true
    total_trade_cost := 10000000 }

/-- The second Scenario-B investor, holding exactly the 4,000,000 still
needed. -/
def exSecondInvestor : InvestorAccount :=
  { total_deposited := 4000000
    total_utilized := 0
    available_balance := 4000000
    total_margin_earned := 0
    total_margin_paid := 0
    total_interest_earned := 0 }

/-- A trade ready for delivery with no deliveries yet. -/
def exTradeReady : Trade := { exTradeA with status := .ready_for_delivery }

/-- A trade parked in 'pending_allocation' with no outstanding precondition. -/
def exTradePendingAlloc : Trade := { exTradeA with status := .pending_allocation }

/-- A completed payment covering exUnpaidInvoice in full. -/
def exFullPayment : Payment := { amount := 12000000, status := .completed }

theorem Trade.status_calculate_costs (t : Trade) : (t.calculate_costs).status = t.status := rfl

theorem Trade.status_save (t : Trade) : (t.save).status = t.status := by
  simp only [Trade.save]
  split <;> rfl

theorem Trade.delivery_status_save (t : Trade) : (t.save).delivery_status = t.delivery_status := by
  simp only [Trade.save]
  split <;> rfl

/-- What progress_to_next_status reduces to for a trade in status 'delivered'. -/
theorem progress_of_delivered (t : Trade) (grns : List ℚ) (invoices : List Invoice)
    (h : t.status = .delivered) :
    t.progress_to_next_status grns invoices =
      if grns = [] then .error "Cannot complete trade without Goods Received Note (GRN)"
      else if t.is_fully_delivered grns = false then
        .error "Cannot complete trade - kg still pending delivery"
      else if (invoices.filter (fun i => unpaidLike i.payment_status)) ≠ [] then
        .error "Cannot complete trade with unpaid invoice(s)"
      else .ok ({ t with status := .completed }).save := by
  simp only [Trade.progress_to_next_status, transitions, h]
  simp

/-- C1: a 'delivered' trade completes only with at least one GRN, cumulative
delivered weight at least quantity_kg, and no unpaid/partial/overdue invoice;
with all three, progress_to_next_status succeeds and sets status 'completed'. -/
theorem delivered_to_completed_gate (t : Trade) (grns : List ℚ) (invoices : List Invoice)
    (h : t.status = .delivered) :
    ((grns ≠ [] ∧ sumKg grns ≥ t.quantity_kg ∧
        (∀ i ∈ invoices, unpaidLike i.payment_status = false)) →
      ∃ t1, t.progress_to_next_status grns invoices = .ok t1 ∧ t1.status = .completed)
    ∧ (¬(grns ≠ [] ∧ sumKg grns ≥ t.quantity_kg ∧
        (∀ i ∈ invoices, unpaidLike i.payment_status = false)) →
      ∃ msg, t.progress_to_next_status grns invoices = .error msg) := by
  rw [progress_of_delivered t grns invoices h]
  constructor
  · rintro ⟨hg, hq, hi⟩
    have hfd : t.is_fully_delivered grns = true := by
      simp only [Trade.is_fully_delivered, Trade.remaining_kg, decide_eq_true_eq]
      exact sub_nonpos.mpr hq
    have hfilter : (invoices.filter (fun i => unpaidLike i.payment_status)) = [] := by
      rw [List.filter_eq_nil_iff]
      intro i hii
      simp [hi i hii]
    rw [if_neg hg, if_neg (by simp [hfd]), if_neg (by simp [hfilter])]
    exact ⟨_, rfl, Trade.status_save _⟩
  · intro hc
    by_cases hg : grns = []
    · rw [if_pos hg]; exact ⟨_, rfl⟩
    by_cases hq : sumKg grns ≥ t.quantity_kg
    · have hi : ¬ (∀ i ∈ invoices, unpaidLike i.payment_status = false) := by
        intro hall; exact hc ⟨hg, hq, hall⟩
      have hfd : t.is_fully_delivered grns = true := by
        simp only [Trade.is_fully_delivered, Trade.remaining_kg, decide_eq_true_eq]
        exact sub_nonpos.mpr hq
      have hfilter : (invoices.filter (fun i => unpaidLike i.payment_status)) ≠ [] := by
        rw [ne_eq, List.filter_eq_nil_iff]
        push_neg
        push_neg at hi
        obtain ⟨i, hii, hbad⟩ := hi
        exact ⟨i, hii, by simp [hbad]⟩
      rw [if_neg hg, if_neg (by simp [hfd]), if_pos hfilter]
      exact ⟨_, rfl⟩
    · have hfd : t.is_fully_delivered grns = false := by
        simp only [Trade.is_fully_delivered, Trade.remaining_kg, decide_eq_false_iff_not]
        intro hle
        exact hq (sub_nonpos.mp hle)
      rw [if_neg hg, if_pos hfd]
      exact ⟨_, rfl⟩

/-- C1 witness: the fully delivered, fully paid example trade completes. -/
theorem delivered_to_completed_gate_witness :
    ∃ t1, exTradeDelivered.progress_to_next_status [10000] [exPaidInvoice] = .ok t1 ∧
      t1.status = .completed := by
  have h := delivered_to_completed_gate exTradeDelivered [10000] [exPaidInvoice] rfl
  refine h.1 ⟨by simp, ?_, ?_⟩
  · norm_num [sumKg, exTradeDelivered, exTradeA]
  · intro i hii
    rw [List.mem_singleton] at hii
    rw [hii]
    rfl

/-- C2: calculate_costs computes total_trade_cost as purchase cost plus the
itemized, transport, financing, insurance, deduction, other, platform-fee and
loss components; payable_by_buyer as revenue plus the buyer's platform-fee
share; margin as their difference; and Scenario A (10,000 kg at buying 1,000
and selling 1,200 with no other costs) yields 10,000,000 / 12,000,000 /
2,000,000. -/
theorem calculate_costs_spec (t : Trade) :
    (t.calculate_costs).total_trade_cost =
      t.buying_price * t.quantity_kg + t.aflatoxin_qa_cost + t.weighbridge_cost +
        t.offloading_cost + t.loading_cost + t.transport_cost_per_kg * t.quantity_kg +
        (if t.financing_days > 0 ∧ t.financing_fee_percentage > 0 then
          (t.buying_price * t.quantity_kg) * (t.financing_fee_percentage / 100 / 365) *
            (t.financing_days : ℚ)
         else 0) +
        (t.selling_price * t.quantity_kg) * (t.git_insurance_percentage / 100) +
        (t.buying_price * t.quantity_kg) * (t.deduction_percentage / 100) +
        t.other_expenses +
        (match t.bennu_fees_payer with
          | .seller => t.bennu_fees
          | .buyer => 0
          | .split => t.bennu_fees / 2) +
        t.loss_cost
    ∧ (t.calculate_costs).payable_by_buyer =
        t.selling_price * t.quantity_kg +
          (match t.bennu_fees_payer with
            | .seller => 0
            | .buyer => t.bennu_fees
            | .split => t.bennu_fees / 2)
    ∧ (t.calculate_costs).margin =
        (t.calculate_costs).payable_by_buyer - (t.calculate_costs).total_trade_cost
    ∧ (exTradeA.calculate_costs).total_trade_cost = 10000000
    ∧ (exTradeA.calculate_costs).payable_by_buyer = 12000000
    ∧ (exTradeA.calculate_costs).margin = 2000000 := by
  refine ⟨rfl, rfl, rfl, ?_, ?_, ?_⟩ <;> norm_num [Trade.calculate_costs, exTradeA]

/-- C3: on completion, distribution maps the per-allocation rule over the
trade's allocations; for each one, margin_earned is the allocation's
proportional share of the trade margin (0 when cost ≤ 0); below the threshold
(defaults 2 / 75 / 25 with no agreement) the investor keeps all of it,
otherwise it is split by the shares; and the investor account releases the
allocated capital plus the investor margin, accruing the margin. -/
theorem profit_distribution_spec (t : Trade) (allocs : List AllocState) (x : AllocState)
    (h : t.status = .completed) :
    handle_trade_status_changes t allocs =
      (if allocs = [] then allocs else allocs.map (distributeOne t.margin t.total_trade_cost))
    ∧ (distributeOne t.margin t.total_trade_cost x).financing.margin_earned =
        (if t.total_trade_cost > 0 then
          t.margin * x.financing.allocated_amount / t.total_trade_cost
         else 0)
    ∧ ((if t.total_trade_cost > 0 then t.margin / t.total_trade_cost * 100 else 0) ≤
          (match x.agreement with | some ag => ag.profit_threshold | none => 2) →
        (distributeOne t.margin t.total_trade_cost x).financing.investor_margin =
          (distributeOne t.margin t.total_trade_cost x).financing.margin_earned ∧
        (distributeOne t.margin t.total_trade_cost x).financing.bennu_margin = 0)
    ∧ (¬(if t.total_trade_cost > 0 then t.margin / t.total_trade_cost * 100 else 0) ≤
          (match x.agreement with | some ag => ag.profit_threshold | none => 2) →
        (distributeOne t.margin t.total_trade_cost x).financing.investor_margin =
          (distributeOne t.margin t.total_trade_cost x).financing.margin_earned *
            (match x.agreement with | some ag => ag.investor_share | none => 75) / 100 ∧
        (distributeOne t.margin t.total_trade_cost x).financing.bennu_margin =
          (distributeOne t.margin t.total_trade_cost x).financing.margin_earned *
            (match x.agreement with | some ag => ag.bennu_share | none => 25) / 100)
    ∧ (distributeOne t.margin t.total_trade_cost x).account.total_utilized =
        x.account.total_utilized - x.financing.allocated_amount
    ∧ (distributeOne t.margin t.total_trade_cost x).account.available_balance =
        x.account.available_balance + (x.financing.allocated_amount +
          (distributeOne t.margin t.total_trade_cost x).financing.investor_margin)
    ∧ (distributeOne t.margin t.total_trade_cost x).account.total_margin_earned =
        x.account.total_margin_earned +
          (distributeOne t.margin t.total_trade_cost x).financing.investor_margin := by
  refine ⟨?_, ?_, ?_, ?_, ?_, ?_, ?_⟩
  · simp [handle_trade_status_changes, distribute_trade_profits, h]
  · simp only [distributeOne]
    split_ifs <;> rfl
  · intro hle
    simp only [distributeOne, InvestorAccount.release_from_trade]
    rw [if_pos hle]
    exact ⟨rfl, rfl⟩
  · intro hgt
    simp only [distributeOne, InvestorAccount.release_from_trade]
    rw [if_neg hgt]
    exact ⟨rfl, rfl⟩
  · simp only [distributeOne, InvestorAccount.release_from_trade]
  · simp only [distributeOne, InvestorAccount.release_from_trade]
  · simp only [distributeOne, InvestorAccount.release_from_trade]

/-- C3 witness: the example completed trade (margin 10 on cost 100, one
allocation of 100, no agreement) distributes 7.5 to the investor. -/
theorem profit_distribution_spec_witness :
    handle_trade_status_changes exTradeCompleted [exAllocState] =
      [exAllocState].map (distributeOne exTradeCompleted.margin
        exTradeCompleted.total_trade_cost)
    ∧ (distributeOne exTradeCompleted.margin exTradeCompleted.total_trade_cost
        exAllocState).financing.investor_margin =
      (distributeOne exTradeCompleted.margin exTradeCompleted.total_trade_cost
        exAllocState).financing.margin_earned * 75 / 100 := by
  have h := profit_distribution_spec exTradeCompleted [exAllocState] exAllocState rfl
  refine ⟨?_, ?_⟩
  · rw [h.1]
    simp
  · exact (h.2.2.2.1 (by norm_num [exTradeCompleted, exTradeA, exAllocState])).1

/-- C4: the completion signal handler in trade/signals.py has no processed
flag: re-firing it for the same completed trade credits the investor account
again.  With margin 10 on cost 100 and one allocation of 100, the first run
leaves available_balance 107.5 and the second run raises it to 215. -/
theorem profit_distribution_not_idempotent :
    (handle_trade_status_changes exTradeCompleted
        (handle_trade_status_changes exTradeCompleted [exAllocState])).map
      (fun x => x.account.available_balance) = [215]
    ∧ (handle_trade_status_changes exTradeCompleted [exAllocState]).map
        (fun x => x.account.available_balance) = [215 / 2]
    ∧ handle_trade_status_changes exTradeCompleted
        (handle_trade_status_changes exTradeCompleted [exAllocState]) ≠
      handle_trade_status_changes exTradeCompleted [exAllocState] := by
  refine ⟨?_, ?_, ?_⟩ <;>
    norm_num [handle_trade_status_changes, distribute_trade_profits, distributeOne,
      InvestorAccount.release_from_trade, exTradeCompleted, exTradeA, exAllocState,
      exFinancing, exUtilizedAccount]

/-- C5 counterexample: in Scenario B, after the 4,000,000 allocation completes
the 10,000,000 financing, handle_trade_financing sets the trade's status to
'pending_allocation' — not 'ready_for_delivery' as the claim states. -/
theorem financing_complete_routes_to_pending_allocation :
    handle_trade_financing exTradeNeedsFin exSecondInvestor [6000000, 4000000] 4000000 =
      .ok ({ exTradeNeedsFin with financing_complete := true, status := .pending_allocation },
        { exSecondInvestor with available_balance := 0, total_utilized := 4000000 })
    ∧ TradeStatus.pending_allocation ≠ TradeStatus.ready_for_delivery := by
  constructor
  · rw [handle_trade_financing, InvestorAccount.allocate_to_trade]
    rw [if_neg (by norm_num [exSecondInvestor])]
    rw [if_pos ⟨rfl, by norm_num [Trade.is_fully_financed, Trade.get_allocated_financing,
      exTradeNeedsFin, exTradeA]⟩]
    norm_num [exSecondInvestor]
  · simp

/-- C5 amended: when an allocation that fits the investor's available balance
brings the sum of allocations to at least total_trade_cost on a trade that
requires financing, is_fully_financed becomes true, financing_complete is set,
and the status is set to 'pending_allocation' (not 'ready_for_delivery');
otherwise the trade is unchanged; is_fully_financed is always true when
requires_financing is false. -/
theorem financing_completion_amended (t : Trade) (acct : InvestorAccount) (allocated : List ℚ)
    (amount : ℚ) (h : ¬ amount > acct.available_balance) :
    (∃ t1 a1, handle_trade_financing t acct allocated amount = .ok (t1, a1) ∧
      a1.available_balance = acct.available_balance - amount ∧
      a1.total_utilized = acct.total_utilized + amount ∧
      (t.requires_financing = true →
        t.get_allocated_financing allocated ≥ t.total_trade_cost →
        t.is_fully_financed allocated = true ∧
        t1.financing_complete = true ∧ t1.status = .pending_allocation) ∧
      (t.requires_financing = true →
        ¬ t.get_allocated_financing allocated ≥ t.total_trade_cost → t1 = t) ∧
      (t.requires_financing = false → t1 = t))
    ∧ (t.requires_financing = false → t.is_fully_financed allocated = true) := by
  constructor
  · rw [handle_trade_financing, InvestorAccount.allocate_to_trade, if_neg h]
    refine ⟨_, _, rfl, rfl, rfl, ?_, ?_, ?_⟩
    · intro hrf hfull
      have hff : t.is_fully_financed allocated = true := by
        simp only [Trade.is_fully_financed, hrf, Bool.true_eq_false, if_false, ite_false,
          decide_eq_true_eq]
        · exact hfull
      rw [if_pos ⟨hrf, hff⟩]
      exact ⟨hff, rfl, rfl⟩
    · intro hrf hnot
      have hff : t.is_fully_financed allocated = false := by
        simp only [Trade.is_fully_financed, hrf, Bool.true_eq_false, if_false, ite_false,
          decide_eq_false_iff_not]
        · exact hnot
      rw [if_neg (by simp [hff])]
    · intro hrf
      rw [if_neg (by simp [hrf])]
  · intro hrf
    simp [Trade.is_fully_financed, hrf]

/-- C5 amended witness: in Scenario B the first 6,000,000 allocation leaves the
trade not fully financed, and the second 4,000,000 allocation flips
financing_complete and moves the trade to 'pending_allocation'. -/
theorem financing_completion_amended_witness :
    exTradeNeedsFin.is_fully_financed [6000000] = false
    ∧ ∃ t1 a1, handle_trade_financing exTradeNeedsFin exSecondInvestor [6000000, 4000000]
        4000000 = .ok (t1, a1) ∧
      exTradeNeedsFin.is_fully_financed [6000000, 4000000] = true ∧
      t1.financing_complete = true ∧ t1.status = .pending_allocation := by
  constructor
  · norm_num [Trade.is_fully_financed, Trade.get_allocated_financing, exTradeNeedsFin,
      exTradeA]
  · obtain ⟨⟨t1, a1, heq, _, _, hfull, _, _⟩, _⟩ :=
      financing_completion_amended exTradeNeedsFin exSecondInvestor [6000000, 4000000]
        4000000 (by norm_num [exSecondInvestor])
    have hge : exTradeNeedsFin.get_allocated_financing [6000000, 4000000] ≥
        exTradeNeedsFin.total_trade_cost := by
      norm_num [Trade.get_allocated_financing, exTradeNeedsFin, exTradeA]
    obtain ⟨hff, hfc, hst⟩ := hfull rfl hge
    exact ⟨t1, a1, heq, hff, hfc, hst⟩

/-- C6 counterexample: an 'approved' trade that requires financing and has
financing_complete = false is not routed to 'pending_allocation':
progress_to_next_status raises (returns the financing ValidationError). -/
theorem approved_with_pending_financing_raises :
    exTradeNeedsFin.progress_to_next_status [] [] =
      .error "Trade requires financing before it can proceed" := by
  simp [Trade.progress_to_next_status, transitions, exTradeNeedsFin, exTradeA]

/-- C6 amended: from 'approved', progress raises ValidationError when
requires_financing && !financing_complete; otherwise it routes to
'pending_allocation' when requires_voucher_allocation && !allocation_complete
and to 'ready_for_delivery' when not; from 'pending_allocation' it raises
unless every required precondition is satisfied, and then moves to
'ready_for_delivery'. -/
theorem approved_routing_amended (t : Trade) (grns : List ℚ) (invoices : List Invoice) :
    (t.status = .approved →
      ((t.requires_financing = true ∧ t.financing_complete = false) →
        ∃ msg, t.progress_to_next_status grns invoices = .error msg)
      ∧ (¬(t.requires_financing = true ∧ t.financing_complete = false) →
          (t.requires_voucher_allocation = true ∧ t.allocation_complete = false) →
          ∃ t1, t.progress_to_next_status grns invoices = .ok t1 ∧
            t1.status = .pending_allocation)
      ∧ (¬(t.requires_financing = true ∧ t.financing_complete = false) →
          ¬(t.requires_voucher_allocation = true ∧ t.allocation_complete = false) →
          ∃ t1, t.progress_to_next_status grns invoices = .ok t1 ∧
            t1.status = .ready_for_delivery))
    ∧ (t.status = .pending_allocation →
        (((t.requires_voucher_allocation = true ∧ t.allocation_complete = false) ∨
            (t.requires_financing = true ∧ t.financing_complete = false)) →
          ∃ msg, t.progress_to_next_status grns invoices = .error msg)
        ∧ (¬(t.requires_voucher_allocation = true ∧ t.allocation_complete = false) →
            ¬(t.requires_financing = true ∧ t.financing_complete = false) →
            ∃ t1, t.progress_to_next_status grns invoices = .ok t1 ∧
              t1.status = .ready_for_delivery)) := by
  constructor
  · intro h
    refine ⟨?_, ?_, ?_⟩
    · rintro ⟨h1, h2⟩
      exact ⟨"Trade requires financing before it can proceed",
        by simp [Trade.progress_to_next_status, transitions, h, h1, h2]⟩
    · rintro h1 ⟨hrv, hac⟩
      have h1' : t.requires_financing = false ∨ t.financing_complete = true := by
        cases hb : t.requires_financing <;> cases hc : t.financing_complete <;> simp_all
      have hval : t.progress_to_next_status grns invoices =
          .ok ({ t with status := .pending_allocation }).save := by
        rcases h1' with h1' | h1' <;>
          simp [Trade.progress_to_next_status, transitions, h, h1', hrv, hac]
      exact ⟨_, hval, by rw [Trade.status_save]⟩
    · intro h1 h2
      have h1' : t.requires_financing = false ∨ t.financing_complete = true := by
        cases hb : t.requires_financing <;> cases hc : t.financing_complete <;> simp_all
      have h2' : t.requires_voucher_allocation = false ∨ t.allocation_complete = true := by
        cases hb : t.requires_voucher_allocation <;> cases hc : t.allocation_complete <;>
          simp_all
      have hval : t.progress_to_next_status grns invoices =
          .ok ({ t with status := .ready_for_delivery }).save := by
        rcases h1' with h1' | h1' <;> rcases h2' with h2' | h2' <;>
          simp [Trade.progress_to_next_status, transitions, h, h1', h2']
      exact ⟨_, hval, by rw [Trade.status_save]⟩
  · intro h
    refine ⟨?_, ?_⟩
    · rintro (⟨ha, hb⟩ | ⟨ha, hb⟩)
      · exact ⟨"Trade requires voucher allocation before it can proceed",
          by simp [Trade.progress_to_next_status, transitions, h, ha, hb]⟩
      · by_cases hv : t.requires_voucher_allocation = true ∧ t.allocation_complete = false
        · exact ⟨"Trade requires voucher allocation before it can proceed",
            by simp [Trade.progress_to_next_status, transitions, h, hv.1, hv.2]⟩
        · have hv' : t.requires_voucher_allocation = false ∨ t.allocation_complete = true := by
            cases hx : t.requires_voucher_allocation <;> cases hy : t.allocation_complete <;>
              simp_all
          rcases hv' with hv' | hv' <;>
            exact ⟨"Trade requires financing completion before it can proceed",
              by simp [Trade.progress_to_next_status, transitions, h, ha, hb, hv']⟩
    · intro h1 h2
      have h1' : t.requires_voucher_allocation = false ∨ t.allocation_complete = true := by
        cases hb : t.requires_voucher_allocation <;> cases hc : t.allocation_complete <;>
          simp_all
      have h2' : t.requires_financing = false ∨ t.financing_complete = true := by
        cases hb : t.requires_financing <;> cases hc : t.financing_complete <;> simp_all
      have hval : t.progress_to_next_status grns invoices =
          .ok ({ t with status := .ready_for_delivery }).save := by
        rcases h1' with h1' | h1' <;> rcases h2' with h2' | h2' <;>
          simp [Trade.progress_to_next_status, transitions, h, h1', h2']
      exact ⟨_, hval, by rw [Trade.status_save]⟩

/-- C6 amended witness: the approved financing-pending example raises, and a
'pending_allocation' trade with no outstanding precondition moves to
'ready_for_delivery'. -/
theorem approved_routing_amended_witness :
    (∃ msg, exTradeNeedsFin.progress_to_next_status [] [] = .error msg)
    ∧ (∃ t1, exTradePendingAlloc.progress_to_next_status [] [] = .ok t1 ∧
        t1.status = .ready_for_delivery) := by
  constructor
  · exact ((approved_routing_amended exTradeNeedsFin [] []).1 rfl).1 ⟨rfl, rfl⟩
  · exact ((approved_routing_amended exTradePendingAlloc [] []).2 rfl).2
      (by decide) (by decide)

/-- C7: recording a delivery errors (no state is produced) when the requested
net weight exceeds the remaining quantity or is not positive; a request for
exactly the remaining quantity succeeds, appends the GRN and flips the trade
to 'delivered'; a first partial delivery on a 'ready_for_delivery' trade flips
it to 'in_transit'. -/
theorem create_delivery_batch_spec (t : Trade) (grns : List ℚ) (requested : ℚ) :
    (requested > t.quantity_kg - sumKg grns →
      ∃ msg, create_delivery_batch t grns requested = .error msg)
    ∧ (requested ≤ 0 → ∃ msg, create_delivery_batch t grns requested = .error msg)
    ∧ ((t.status = .ready_for_delivery ∨ t.status = .in_transit ∨ t.status = .delivered) →
        0 < t.quantity_kg - sumKg grns → requested = t.quantity_kg - sumKg grns →
        ∃ t2, create_delivery_batch t grns requested = .ok (t2, grns ++ [requested]) ∧
          t2.status = .delivered ∧ t2.delivery_status = .delivered)
    ∧ (t.status = .ready_for_delivery → 0 < requested →
        requested < t.quantity_kg - sumKg grns →
        ∃ t2, create_delivery_batch t grns requested = .ok (t2, grns ++ [requested]) ∧
          t2.status = .in_transit) := by
  refine ⟨?_, ?_, ?_, ?_⟩
  · intro hgt
    by_cases hs : t.status ≠ .ready_for_delivery ∧ t.status ≠ .in_transit ∧
        t.status ≠ .delivered
    · refine ⟨"Cannot create delivery for trade in this status", ?_⟩
      simp only [create_delivery_batch]
      rw [if_pos hs]
    · by_cases h1 : t.quantity_kg - sumKg grns ≤ 0
      · refine ⟨"Trade order fully delivered", ?_⟩
        simp only [create_delivery_batch]
        rw [if_neg hs, if_pos h1]
      · by_cases h2 : requested ≤ 0
        · refine ⟨"net_weight_kg must be greater than 0", ?_⟩
          simp only [create_delivery_batch]
          rw [if_neg hs, if_neg h1, if_pos h2]
        · refine ⟨"Requested quantity exceeds remaining quantity", ?_⟩
          simp only [create_delivery_batch]
          rw [if_neg hs, if_neg h1, if_neg h2, if_pos hgt]
  · intro h2
    by_cases hs : t.status ≠ .ready_for_delivery ∧ t.status ≠ .in_transit ∧
        t.status ≠ .delivered
    · refine ⟨"Cannot create delivery for trade in this status", ?_⟩
      simp only [create_delivery_batch]
      rw [if_pos hs]
    · by_cases h1 : t.quantity_kg - sumKg grns ≤ 0
      · refine ⟨"Trade order fully delivered", ?_⟩
        simp only [create_delivery_batch]
        rw [if_neg hs, if_pos h1]
      · refine ⟨"net_weight_kg must be greater than 0", ?_⟩
        simp only [create_delivery_batch]
        rw [if_neg hs, if_neg h1, if_pos h2]
  · intro hst hrem heq
    have hs : ¬(t.status ≠ .ready_for_delivery ∧ t.status ≠ .in_transit ∧
        t.status ≠ .delivered) := by
      rcases hst with h | h | h <;> simp [h]
    have h1 : ¬(t.quantity_kg - sumKg grns ≤ 0) := not_le.mpr hrem
    have h2 : ¬(requested ≤ 0) := by rw [heq]; exact not_le.mpr hrem
    have h3 : ¬(requested > t.quantity_kg - sumKg grns) := by rw [heq]; exact lt_irrefl _
    have h4 : sumKg grns + requested ≥ t.quantity_kg := by rw [heq]; linarith
    simp only [create_delivery_batch]
    rw [if_neg hs, if_neg h1, if_neg h2, if_neg h3, if_pos h4]
    exact ⟨_, rfl, by rw [Trade.status_save], by rw [Trade.delivery_status_save]⟩
  · intro hst hpos hlt
    have hs : ¬(t.status ≠ .ready_for_delivery ∧ t.status ≠ .in_transit ∧
        t.status ≠ .delivered) := by simp [hst]
    have h1 : ¬(t.quantity_kg - sumKg grns ≤ 0) := not_le.mpr (lt_trans hpos hlt)
    have h2 : ¬(requested ≤ 0) := not_le.mpr hpos
    have h3 : ¬(requested > t.quantity_kg - sumKg grns) := not_lt.mpr (le_of_lt hlt)
    have h4 : ¬(sumKg grns + requested ≥ t.quantity_kg) := by
      intro hc; rw [ge_iff_le, ← sub_le_iff_le_add'] at hc; exact absurd hc (not_le.mpr hlt)
    simp only [create_delivery_batch]
    rw [if_neg hs, if_neg h1, if_neg h2, if_neg h3, if_neg h4, if_pos hst]
    exact ⟨_, rfl, by rw [Trade.status_save]⟩

/-- C7 witness: on the ready-for-delivery 10,000 kg example, an over-delivery
of 20,000 kg errors, a first partial 4,000 kg delivery moves the trade to
'in_transit', and a final 6,000 kg delivery (the exact remainder) flips it to
'delivered'. -/
theorem create_delivery_batch_spec_witness :
    (∃ msg, create_delivery_batch exTradeReady [] 20000 = .error msg)
    ∧ (∃ t2, create_delivery_batch exTradeReady [] 4000 = .ok (t2, [(4000 : ℚ)]) ∧
        t2.status = .in_transit)
    ∧ (∃ t2, create_delivery_batch exTradeReady [4000] 6000 =
        .ok (t2, [(4000 : ℚ), 6000]) ∧ t2.status = .delivered ∧
        t2.delivery_status = .delivered) := by
  refine ⟨?_, ?_, ?_⟩
  · exact (create_delivery_batch_spec exTradeReady [] 20000).1
      (by norm_num [sumKg, exTradeReady, exTradeA])
  · have h := (create_delivery_batch_spec exTradeReady [] 4000).2.2.2 rfl (by norm_num)
      (by norm_num [sumKg, exTradeReady, exTradeA])
    simpa using h
  · have h := (create_delivery_batch_spec exTradeReady [4000] 6000).2.2.1 (Or.inl rfl)
      (by norm_num [sumKg, exTradeReady, exTradeA])
      (by norm_num [sumKg, exTradeReady, exTradeA])
    simpa using h

theorem Invoice.update_payment_status_money (j : Invoice) (today : ℤ) :
    (j.update_payment_status today).amount_due = j.amount_due ∧
    (j.update_payment_status today).total_amount = j.total_amount ∧
    (j.update_payment_status today).amount_paid = j.amount_paid := by
  simp only [Invoice.update_payment_status]
  split_ifs <;> exact ⟨rfl, rfl, rfl⟩

theorem Invoice.save_amount_due (j : Invoice) (today : ℤ) :
    (j.save today).amount_due = (j.save today).total_amount - (j.save today).amount_paid := by
  simp only [Invoice.save]
  obtain ⟨h1, h2, h3⟩ := Invoice.update_payment_status_money (j.calculate_amounts) today
  rw [h1, h2, h3]
  rfl

/-- C9: after an invoice save, and after a payment application (which resets
amount_paid to the sum of completed payments and re-saves), the invariant
amount_due = total_amount - amount_paid holds. -/
theorem amount_due_invariant (inv : Invoice) (payments : List Payment) (today : ℤ) :
    (inv.save today).amount_due =
      (inv.save today).total_amount - (inv.save today).amount_paid
    ∧ (update_invoice_on_payment inv payments today).amount_due =
        (update_invoice_on_payment inv payments today).total_amount -
          (update_invoice_on_payment inv payments today).amount_paid := by
  refine ⟨Invoice.save_amount_due inv today, ?_⟩
  simp only [update_invoice_on_payment]
  exact Invoice.save_amount_due _ today

/-- C10: saving a completed payment completes the trade exactly when the trade
is 'delivered' and no invoice of the trade is unpaid/partial/overdue, and that
completion immediately runs profit distribution; otherwise the trade and the
allocations are left unchanged. -/
theorem payment_completion_spec (p : Payment) (t : Trade) (invoices : List Invoice)
    (allocs : List AllocState) :
    (p.status = .completed → t.status = .delivered →
      (invoices.filter (fun i => unpaidLike i.payment_status)) = [] →
      (check_trade_completion p t invoices allocs).1.status = .completed ∧
      (check_trade_completion p t invoices allocs).2 =
        distribute_trade_profits (({ t with status := TradeStatus.completed }).save) allocs)
    ∧ ((invoices.filter (fun i => unpaidLike i.payment_status)) ≠ [] →
        check_trade_completion p t invoices allocs = (t, allocs))
    ∧ (t.status ≠ .delivered → check_trade_completion p t invoices allocs = (t, allocs)) := by
  refine ⟨?_, ?_, ?_⟩
  · intro hp ht hall
    simp only [check_trade_completion, hp]
    rw [if_neg (by simp), if_pos ⟨hall, ht⟩]
    refine ⟨Trade.status_save _, ?_⟩
    simp [handle_trade_status_changes, Trade.status_save]
  · intro hne
    by_cases hp : p.status = .completed
    · simp only [check_trade_completion, hp]
      rw [if_neg (by simp), if_neg (by intro hc; exact hne hc.1)]
    · simp only [check_trade_completion]
      rw [if_pos hp]
  · intro ht
    by_cases hp : p.status = .completed
    · simp only [check_trade_completion, hp]
      rw [if_neg (by simp), if_neg (by intro hc; exact ht hc.2)]
    · simp only [check_trade_completion]
      rw [if_pos hp]

/-- C10 witness: a completed full payment on the delivered example trade (one
invoice, fully paid) completes the trade and runs distribution over its
(empty) allocation list. -/
theorem payment_completion_spec_witness :
    (check_trade_completion exFullPayment exTradeDelivered [exPaidInvoice] []).1.status =
      .completed
    ∧ (check_trade_completion exFullPayment exTradeDelivered [exPaidInvoice] []).2 =
      distribute_trade_profits
        (({ exTradeDelivered with status := TradeStatus.completed }).save) [] := by
  exact (payment_completion_spec exFullPayment exTradeDelivered [exPaidInvoice] []).1
    rfl rfl (by rfl)

theorem Invoice.update_payment_status_fields (j : Invoice) (today : ℤ) :
    (j.update_payment_status today).quantity_kg = j.quantity_kg ∧
    (j.update_payment_status today).unit_price = j.unit_price ∧
    (j.update_payment_status today).bennu_fees = j.bennu_fees ∧
    (j.update_payment_status today).logistics_cost = j.logistics_cost ∧
    (j.update_payment_status today).weighbridge_cost = j.weighbridge_cost ∧
    (j.update_payment_status today).other_charges = j.other_charges ∧
    (j.update_payment_status today).tax_rate = j.tax_rate ∧
    (j.update_payment_status today).discount_amount = j.discount_amount := by
  simp only [Invoice.update_payment_status]
  split_ifs <;> exact ⟨rfl, rfl, rfl, rfl, rfl, rfl, rfl, rfl⟩

theorem Invoice.save_is_paid (j : Invoice) (today : ℤ) (hz : j.amount_paid ≠ 0)
    (hge : (j.calculate_amounts).total_amount ≤ j.amount_paid) :
    (j.save today).payment_status = .paid ∧ (j.save today).status = .paid := by
  have hz' : ¬((j.calculate_amounts).amount_paid = 0) := hz
  have hge' : (j.calculate_amounts).amount_paid ≥ (j.calculate_amounts).total_amount := hge
  simp only [Invoice.save, Invoice.update_payment_status]
  rw [if_neg hz', if_pos hge']
  simp

/-- C8: payment_status after update_payment_status is the pure cascade of
amount_paid vs total_amount vs due_date vs today: zero → unpaid, proper
partial → partial (status partially_paid), at-least-total → paid (status
paid), and any non-paid outcome past due becomes overdue (status overdue
unless cancelled or paid); a payment of exactly amount_due on a consistent
unpaid invoice makes it paid. -/
theorem invoice_payment_status_pure (inv : Invoice) (today : ℤ) :
    (inv.update_payment_status today).payment_status =
      (if inv.amount_paid = 0 then
        (if inv.due_date < today then PaymentStatus.overdue else PaymentStatus.unpaid)
       else if inv.amount_paid ≥ inv.total_amount then PaymentStatus.paid
       else if inv.due_date < today then PaymentStatus.overdue else PaymentStatus.part_paid)
    ∧ (inv.amount_paid ≠ 0 → inv.amount_paid ≥ inv.total_amount →
        (inv.update_payment_status today).payment_status = .paid ∧
        (inv.update_payment_status today).status = .paid)
    ∧ (0 < inv.amount_paid → inv.amount_paid < inv.total_amount → ¬ inv.due_date < today →
        (inv.update_payment_status today).payment_status = .part_paid ∧
        (inv.update_payment_status today).status = .partly_paid)
    ∧ ((inv.amount_paid = 0 ∨ inv.amount_paid < inv.total_amount) → inv.due_date < today →
        inv.status ≠ .cancelled → inv.status ≠ .paid →
        (inv.update_payment_status today).payment_status = .overdue ∧
        (inv.update_payment_status today).status = .overdue)
    ∧ (inv.calculate_amounts = inv → inv.amount_paid = 0 → 0 < inv.total_amount →
        (update_invoice_on_payment inv [⟨inv.amount_due, PayStatus.completed⟩]
          today).payment_status = .paid ∧
        (update_invoice_on_payment inv [⟨inv.amount_due, PayStatus.completed⟩]
          today).status = .paid) := by
  refine ⟨?_, ?_, ?_, ?_, ?_⟩
  · by_cases hz : inv.amount_paid = 0
    · by_cases hd : inv.due_date < today <;>
        simp [Invoice.update_payment_status, hz, hd]
    · by_cases hge : inv.amount_paid ≥ inv.total_amount
      · simp [Invoice.update_payment_status, hz, hge]
      · by_cases hd : inv.due_date < today <;>
          simp [Invoice.update_payment_status, hz, hge, hd]
  · intro hz hge
    simp [Invoice.update_payment_status, hz, hge]
  · intro hpos hlt hd
    have hz : inv.amount_paid ≠ 0 := ne_of_gt hpos
    have hge : ¬ inv.amount_paid ≥ inv.total_amount := not_le.mpr hlt
    simp [Invoice.update_payment_status, hz, hge, hd]
  · rintro (hz | hlt) hd hc hp
    · simp [Invoice.update_payment_status, hz, hd, hc, hp]
    · by_cases hz : inv.amount_paid = 0
      · simp [Invoice.update_payment_status, hz, hd, hc, hp]
      · have hge : ¬ inv.amount_paid ≥ inv.total_amount := not_le.mpr hlt
        simp [Invoice.update_payment_status, hz, hge, hd]
  · intro hfix hz hpos
    have hTA := congrArg Invoice.total_amount hfix
    have hAD := congrArg Invoice.amount_due hfix
    simp only [Invoice.calculate_amounts] at hTA hAD
    rw [hz, sub_zero] at hAD
    have hdt : inv.amount_due = inv.total_amount := by rw [← hAD, hTA]
    have hct : completedTotal [⟨inv.amount_due, PayStatus.completed⟩] = inv.amount_due := by
      simp [completedTotal]
    simp only [update_invoice_on_payment, hct]
    refine Invoice.save_is_paid _ today ?_ ?_
    · rw [(Invoice.update_payment_status_money _ today).2.2]
      show inv.amount_due ≠ 0
      rw [hdt]
      exact ne_of_gt hpos
    · rw [(Invoice.update_payment_status_money _ today).2.2]
      obtain ⟨f1, f2, f3, f4, f5, f6, f7, f8⟩ :=
        Invoice.update_payment_status_fields { inv with amount_paid := inv.amount_due, amount_due := inv.total_amount - inv.amount_due } today
      simp only [Invoice.calculate_amounts]
      rw [f1, f2, f3, f4, f5, f6, f7, f8]
      exact le_of_eq hAD

/-- C8 witness: paying exactly the amount due on the consistent unpaid example
invoice (12,000,000 due) makes it paid in full. -/
theorem invoice_payment_status_pure_witness :
    (update_invoice_on_payment exUnpaidInvoice
      [⟨exUnpaidInvoice.amount_due, PayStatus.completed⟩] 0).payment_status = .paid
    ∧ (update_invoice_on_payment exUnpaidInvoice
        [⟨exUnpaidInvoice.amount_due, PayStatus.completed⟩] 0).status = .paid := by
  refine (invoice_payment_status_pure exUnpaidInvoice 0).2.2.2.2 ?_ rfl ?_
  · simp [Invoice.calculate_amounts, exUnpaidInvoice, exPaidInvoice]
    norm_num
  · norm_num [exUnpaidInvoice, exPaidInvoice]

end GrainVoucher
